import Mathlib

/-!
Shallow embedding of the `determined` harness fragment:

* `src/harness/determined/exec/harness.py` — the on-cluster harness entry
  point `main`, embedded as a pure function that produces the trace of
  externally visible steps together with the final outcome.
* `determined.common.api.authentication` (`Authentication`, `TokenStore`,
  and the CLI logout flow) — not present under `src/`; modelled from the
  spec's description of the precedence-ordered credential-resolution
  decision table, constrained by the decision tables in
  `src/harness/tests/cli/test_auth.py`.
-/

namespace Harness

/-- Distributed-training backends the harness can attach to
(`core.DistributedContext.from_horovod` / `from_deepspeed` /
`from_torch_distributed` in `harness.py`). -/
inductive Backend where
  | horovod
  | deepspeed
  | torchDistributed
  deriving DecidableEq, Repr

/-- `core.PreemptMode` values used by `harness.py` (`core.init` is called
with `preempt_mode=core.PreemptMode.ChiefOnly`). -/
inductive PreemptMode where
  | workersAskChief
  | chiefOnly
  | workersAskMaster
  deriving DecidableEq, Repr

/-- `core.TensorboardMode` values used by `harness.py` (`core.init` is
called with `tensorboard_mode=core.TensorboardMode.MANUAL`). -/
inductive TensorboardMode where
  | auto
  | manual
  deriving DecidableEq, Repr

/-- Externally visible steps taken by `main` in
`src/harness/determined/exec/harness.py`, in program order. -/
inductive Event where
  | getClusterInfo
  | loadCert
  | trialClassFromEntrypoint
  | sendAnalytics
  | analyticsExceptionLoggedDebug
  | runPytorchTrial
  | getTrialControllerClass
  | preExecuteHook
  | distributedFromHorovod
  | distributedFromDeepspeed
  | distributedFromTorch
  | coreInit (distributed : Option Backend) (preempt : PreemptMode) (tensorboard : TensorboardMode)
  | instantiateTrialContext
  | instantiateTrial
  | controllerFromTrial
  | controllerRun
  deriving DecidableEq, Repr

/-- Outcome of a `main` run: normal return code, a failed `assert`
statement, or a raised `ValueError`. -/
inductive MainResult where
  | ok (code : Nat)
  | assertionError (msg : String)
  | valueError (msg : String)
  deriving DecidableEq, Repr

/-- The fields of `det.get_cluster_info()` that `main` reads
(`task_type`, `container_rank`, `container_addrs`, `slot_ids`). -/
structure ClusterInfo where
  task_type : String
  container_rank : Nat
  container_addrs : List String
  slot_ids : List Nat
  deriving DecidableEq, Repr

/-- Inputs that determine the control flow of `main`: the cluster info
(`none` when run off-cluster), whether the loaded trial class is a
`det.pytorch.PyTorchTrial` (with pytorch importable), which distributed
backend the environment reports active (`_DistributedBackend.use_horovod`
/ `use_deepspeed` / `use_torch`), and whether `analytics.send_analytics`
raises. -/
structure MainConfig where
  info : Option ClusterInfo
  isPytorchTrial : Bool
  useHorovod : Bool
  useDeepspeed : Bool
  useTorch : Bool
  analyticsRaises : Bool
  deriving DecidableEq, Repr

/-- The `ValueError` message raised by `main` for multi-slot tasks with no
active distributed backend. -/
def multiSlotMsg : String :=
  "In multi-slot tasks, the determined.exec.harness module must not be invoked " ++
  "directly.  Instead, it must be wrapped in one of the following launch layers: " ++
  "determined.launch.horovod, determined.launch.deepspeed"

/-- Embedding of `main(train_entrypoint)` from
`src/harness/determined/exec/harness.py`: returns the trace of externally
visible steps together with the outcome, following the source line by
line (asserts, cert load, trial-class load, rank-0 analytics with
catch-all logging, pytorch dispatch, controller-class load,
`pre_execute_hook`, the Horovod/DeepSpeed/Torch backend decision, the
multi-slot `ValueError`, `core.init`, trial instantiation, and
`controller.run`). -/
def runMain (cfg : MainConfig) : List Event × MainResult :=
  match cfg.info with
  | none => ([.getClusterInfo], .assertionError "must be run on-cluster")
  | some info =>
    if info.task_type ≠ "TRIAL" then
      ([.getClusterInfo],
        .assertionError ("must be run with task_type=\"TRIAL\", not \"" ++ info.task_type ++ "\""))
    else
      let tr0 : List Event := [.getClusterInfo, .loadCert, .trialClassFromEntrypoint]
      let tr1 : List Event :=
        tr0 ++
          (if info.container_rank = 0 then
            [Event.sendAnalytics] ++
              (if cfg.analyticsRaises then [Event.analyticsExceptionLoggedDebug] else [])
          else [])
      if cfg.isPytorchTrial then
        (tr1 ++ [.runPytorchTrial], .ok 0)
      else
        let tr2 : List Event := tr1 ++ [.getTrialControllerClass, .preExecuteHook]
        if cfg.useHorovod then
          (tr2 ++ [.distributedFromHorovod,
                   .coreInit (some .horovod) .chiefOnly .manual,
                   .instantiateTrialContext, .instantiateTrial,
                   .controllerFromTrial, .controllerRun], .ok 0)
        else if cfg.useDeepspeed then
          (tr2 ++ [.distributedFromDeepspeed,
                   .coreInit (some .deepspeed) .chiefOnly .manual,
                   .instantiateTrialContext, .instantiateTrial,
                   .controllerFromTrial, .controllerRun], .ok 0)
        else if cfg.useTorch then
          (tr2 ++ [.distributedFromTorch,
                   .coreInit (some .torchDistributed) .chiefOnly .manual,
                   .instantiateTrialContext, .instantiateTrial,
                   .controllerFromTrial, .controllerRun], .ok 0)
        else if info.container_addrs.length > 1 ∨ info.slot_ids.length > 1 then
          (tr2, .valueError multiSlotMsg)
        else
          (tr2 ++ [.coreInit none .chiefOnly .manual,
                   .instantiateTrialContext, .instantiateTrial,
                   .controllerFromTrial, .controllerRun], .ok 0)

/-- The distributed backend chosen by the `use_horovod` /
`use_deepspeed` / `use_torch` chain in `main` (first active backend
wins, `none` when no backend is active). -/
def selectedBackend (cfg : MainConfig) : Option Backend :=
  if cfg.useHorovod then some .horovod
  else if cfg.useDeepspeed then some .deepspeed
  else if cfg.useTorch then some .torchDistributed
  else none

/-- The trace and outcome of `main` on a TRIAL task, with the two
data-dependent conditions (`container_rank == 0` and the multi-slot
test) abstracted as booleans; used as a finite normal form of
`runMain`. -/
def runMainTrial (pt hv ds tc ar rank0 multi : Bool) : List Event × MainResult :=
  let tr1 : List Event :=
    [.getClusterInfo, .loadCert, .trialClassFromEntrypoint] ++
      (if rank0 then
        [Event.sendAnalytics] ++
          (if ar then [Event.analyticsExceptionLoggedDebug] else [])
      else [])
  if pt then (tr1 ++ [.runPytorchTrial], .ok 0)
  else
    let tr2 : List Event := tr1 ++ [.getTrialControllerClass, .preExecuteHook]
    if hv then
      (tr2 ++ [.distributedFromHorovod,
               .coreInit (some .horovod) .chiefOnly .manual,
               .instantiateTrialContext, .instantiateTrial,
               .controllerFromTrial, .controllerRun], .ok 0)
    else if ds then
      (tr2 ++ [.distributedFromDeepspeed,
               .coreInit (some .deepspeed) .chiefOnly .manual,
               .instantiateTrialContext, .instantiateTrial,
               .controllerFromTrial, .controllerRun], .ok 0)
    else if tc then
      (tr2 ++ [.distributedFromTorch,
               .coreInit (some .torchDistributed) .chiefOnly .manual,
               .instantiateTrialContext, .instantiateTrial,
               .controllerFromTrial, .controllerRun], .ok 0)
    else if multi then (tr2, .valueError multiSlotMsg)
    else
      (tr2 ++ [.coreInit none .chiefOnly .manual,
               .instantiateTrialContext, .instantiateTrial,
               .controllerFromTrial, .controllerRun], .ok 0)

end Harness

namespace Auth

/-- Modelled from the spec: the token-cache state read by the CLI
authentication logic (`determined.common.api.authentication.TokenStore`
is not under `src/`): the per-user token map and the active user, as
exercised by `MockTokenStore` in `src/harness/tests/cli/test_auth.py`. -/
structure TokenCache where
  tokens : List (String × String)
  activeUser : Option String
  deriving DecidableEq, Repr

/-- Token lookup for a user in the cache (`TokenStore.get_token`). -/
def TokenCache.getToken (c : TokenCache) (u : String) : Option String :=
  c.tokens.lookup u

/-- The six inputs of the authentication decision table: the explicitly
requested user and password, the `DET_USER`, `DET_PASS` and
`DET_USER_TOKEN` environment variables, and the token-cache state. -/
structure AuthInputs where
  reqUser : Option String
  reqPass : Option String
  envUser : Option String
  envPass : Option String
  envToken : Option String
  cache : TokenCache
  deriving DecidableEq, Repr

/-- Externally visible calls made while resolving authentication:
token-validity checks (`_is_token_valid`), cache drops (`drop_user`),
`do_login` calls and cache writes (`set_token`). -/
inductive AuthEvent where
  | checkToken (token : String)
  | dropUser (user : String)
  | doLogin (user pass : String)
  | setToken (user token : String)
  deriving DecidableEq, BEq, Repr

/-- Modelled from the spec: `default_load_user_password` of
`determined.common.api.authentication` (not under `src/`).  Precedence
for the session user and password: an explicitly requested user (with
the explicitly requested password) first; else the `DET_USER`/`DET_PASS`
environment pair, which is only consulted as a unit; else the cache's
active user with the explicitly requested password. -/
def defaultLoadUserPassword (i : AuthInputs) : Option String × Option String :=
  match i.reqUser with
  | some u => (some u, i.reqPass)
  | none =>
    match i.envUser, i.envPass with
    | some eu, some ep => (some eu, some ep)
    | _, _ => (i.cache.activeUser, i.reqPass)

/-- Modelled from the spec: the `DET_USER_TOKEN` fallback of
`Authentication._init_session` (not under `src/`).  The environment
token is usable when both `DET_USER` and `DET_USER_TOKEN` are set and
the explicitly requested user, if any, matches `DET_USER`. -/
def envTokenPair (i : AuthInputs) : Option (String × String) :=
  match i.envUser, i.envToken with
  | some eu, some tok =>
    match i.reqUser with
    | none => some (eu, tok)
    | some ru => if ru = eu then some (eu, tok) else none
  | _, _ => none

/-- Modelled from the spec: the tail of `Authentication._init_session`
(not under `src/`) once no valid cached token was found: use the
environment token when applicable; else fall back to the default user
`"determined"` with an empty default password when no user resolved;
prompt for a password only when a user resolved without one; then call
`do_login` and store the new token. -/
def finishLogin (promptPass : String) (doLoginTok : String → String → String)
    (i : AuthInputs) (tr : List AuthEvent) (sessionUser : Option String)
    (password : Option String) : List AuthEvent × String × String :=
  match envTokenPair i with
  | some (eu, tok) => (tr, (eu, tok))
  | none =>
    let up : String × String :=
      match sessionUser with
      | none => ("determined", password.getD "")
      | some u => (u, password.getD promptPass)
    let tok := doLoginTok up.1 up.2
    (tr ++ [.doLogin up.1 up.2, .setToken up.1 tok], (up.1, tok))

/-- Modelled from the spec: `Authentication.__init__`/`_init_session` of
`determined.common.api.authentication` (not under `src/`), the
precedence-ordered decision table over the six inputs: resolve the
session user and password, validate a cached token for that user first
(dropping it when invalid), and otherwise fall through to the
environment token or a `do_login` call.  `valid` is the
`_is_token_valid` oracle, `promptPass` the `getpass` result and
`doLoginTok` the `do_login` result; the function returns the call trace
and the final session `(username, token)` pair. -/
def authentication (valid : String → Bool) (promptPass : String)
    (doLoginTok : String → String → String) (i : AuthInputs) :
    List AuthEvent × String × String :=
  match defaultLoadUserPassword i with
  | (some u, pw) =>
    match i.cache.getToken u with
    | some t =>
      if valid t then ([.checkToken t], (u, t))
      else finishLogin promptPass doLoginTok i [.checkToken t, .dropUser u] (some u) pw
    | none => finishLogin promptPass doLoginTok i [] (some u) pw
  | (none, pw) => finishLogin promptPass doLoginTok i [] none pw

end Auth

namespace Auth

/-- An expected result in a row of the `test_login_scenarios` decision
table: a `Check` of a token's validity, a `DoLogin` call, or a final
`Use` of a session pair. -/
inductive LoginExpect where
  | check (token : String)
  | login (user pass : String)
  | use (user token : String)
  deriving DecidableEq, Repr

/-- One row of the `test_login_scenarios` decision table: the expanded
option sets for the six inputs and the expected results. -/
structure LoginRow where
  ru : List (Option String)
  rp : List (Option String)
  eu : List (Option String)
  ep : List (Option String)
  et : List (Option String)
  ca : List (Option String)
  expected : List LoginExpect

/-- The mock `TokenStore` state of `test_login_scenarios`: `get_token`
answers the scenario's cache value for the users `user`, `extra` and
`determined`, and the active user is `user` whenever the cache is
configured. -/
def mkCache (ca : Option String) : TokenCache :=
  { tokens := match ca with
      | some t => [("user", t), ("extra", t), ("determined", t)]
      | none => []
    activeUser := if ca.isSome then some "user" else none }

/-- The mock `_is_token_valid` of `test_login_scenarios`: only the
tokens `cache` and `env_token` are valid. -/
def validMock (t : String) : Bool := t == "cache" || t == "env_token"

/-- Checks one concrete scenario of `test_login_scenarios` against the
model: every expected `Check`/`DoLogin` call occurs, the session pair is
the expected one, and no unexpected `Check` or `DoLogin` call occurs. -/
def scenarioOk (i : AuthInputs) (exp : List LoginExpect) : Bool :=
  let r := authentication validMock "prompt_pass" (fun _ _ => "new") i
  let tr := r.1
  let sess := r.2
  (exp.all (fun e =>
    match e with
    | .check t => tr.contains (.checkToken t)
    | .login u p => tr.contains (.doLogin u p)
    | .use u t => sess == (u, t))) &&
  (exp.any (fun e => match e with | .check _ => true | _ => false) ||
    tr.all (fun ev => match ev with | .checkToken _ => false | _ => true)) &&
  (exp.any (fun e => match e with | .login _ _ => true | _ => false) ||
    tr.all (fun ev => match ev with | .doLogin _ _ => false | _ => true))

/-- Checks every scenario covered by a row of the decision table. -/
def rowOk (r : LoginRow) : Bool :=
  r.ru.all fun ru => r.rp.all fun rp => r.eu.all fun eu => r.ep.all fun ep =>
    r.et.all fun et => r.ca.all fun ca =>
      scenarioOk ⟨ru, rp, eu, ep, et, mkCache ca⟩ r.expected

/-- Option set `y` for the requested or environment user field. -/
def oU : List (Option String) := [some "user"]

/-- Option set `n` for an unset field. -/
def oN : List (Option String) := [none]

/-- Requested user glob `*`. -/
def ruA : List (Option String) := [some "user", none]

/-- Requested password `y`. -/
def rpY : List (Option String) := [some "req_pass"]

/-- Requested password glob `*`. -/
def rpA : List (Option String) := [some "req_pass", none]

/-- Environment user `e`. -/
def euE : List (Option String) := [some "extra"]

/-- Environment user glob `ne`. -/
def euNE : List (Option String) := [none, some "extra"]

/-- Environment user glob `*`. -/
def euA : List (Option String) := [some "user", some "extra", none]

/-- Environment user glob `yn`. -/
def euYN : List (Option String) := [some "user", none]

/-- Environment password `y`. -/
def epY : List (Option String) := [some "env_pass"]

/-- Environment password glob `*`. -/
def epA : List (Option String) := [some "env_pass", none]

/-- Environment token `y`. -/
def etY : List (Option String) := [some "env_token"]

/-- Environment token glob `*`. -/
def etA : List (Option String) := [some "env_token", none]

/-- Cache state `y` (a valid cached token). -/
def caY : List (Option String) := [some "cache"]

/-- Cache state `x` (an expired cached token). -/
def caX : List (Option String) := [some "expired"]

/-- The full decision table of `test_login_scenarios` in
`src/harness/tests/cli/test_auth.py`, row for row. -/
def loginRows : List LoginRow := [
  ⟨oU, rpY, euNE, epA, etA, caY, [.check "cache", .use "user" "cache"]⟩,
  ⟨oU, rpY, euNE, epA, etA, oN, [.login "user" "req_pass", .use "user" "new"]⟩,
  ⟨oU, rpY, euNE, epA, etA, caX, [.check "expired", .login "user" "req_pass", .use "user" "new"]⟩,
  ⟨oU, oN, euNE, epA, etA, caY, [.check "cache", .use "user" "cache"]⟩,
  ⟨oU, oN, euNE, epA, etA, oN, [.login "user" "prompt_pass", .use "user" "new"]⟩,
  ⟨oU, oN, euNE, epA, etA, caX, [.check "expired", .login "user" "prompt_pass", .use "user" "new"]⟩,
  ⟨oU, rpY, oU, epA, oN, caY, [.check "cache", .use "user" "cache"]⟩,
  ⟨oU, rpY, oU, epA, oN, oN, [.login "user" "req_pass", .use "user" "new"]⟩,
  ⟨oU, rpY, oU, epA, oN, caX, [.check "expired", .login "user" "req_pass", .use "user" "new"]⟩,
  ⟨oU, rpY, oU, epY, etY, caY, [.check "cache", .use "user" "cache"]⟩,
  ⟨oU, rpY, oU, epY, etY, caX, [.check "expired", .use "user" "env_token"]⟩,
  ⟨oU, rpY, oU, epY, etY, oN, [.use "user" "env_token"]⟩,
  ⟨oU, oN, oU, epY, oN, caY, [.check "cache", .use "user" "cache"]⟩,
  ⟨oU, oN, oU, epY, oN, oN, [.login "user" "prompt_pass", .use "user" "new"]⟩,
  ⟨oU, oN, oU, epY, oN, caX, [.check "expired", .login "user" "prompt_pass", .use "user" "new"]⟩,
  ⟨oU, oN, oU, oN, oN, caY, [.check "cache", .use "user" "cache"]⟩,
  ⟨oU, oN, oU, oN, oN, oN, [.login "user" "prompt_pass", .use "user" "new"]⟩,
  ⟨oU, oN, oU, oN, oN, caX, [.check "expired", .login "user" "prompt_pass", .use "user" "new"]⟩,
  ⟨ruA, rpA, oU, epA, etY, caY, [.check "cache", .use "user" "cache"]⟩,
  ⟨oU, rpA, oU, epA, etY, oN, [.use "user" "env_token"]⟩,
  ⟨oN, rpA, oU, epA, etY, oN, [.use "user" "env_token"]⟩,
  ⟨oN, rpA, oU, epA, etY, caX, [.check "expired", .use "user" "env_token"]⟩,
  ⟨oN, rpA, oU, epA, etY, caY, [.check "cache", .use "user" "cache"]⟩,
  ⟨oN, rpA, euE, oN, etY, caY, [.check "cache", .use "user" "cache"]⟩,
  ⟨oN, rpA, euE, epY, etY, caY, [.check "cache", .use "extra" "cache"]⟩,
  ⟨oN, rpA, oU, epY, oN, caY, [.check "cache", .use "user" "cache"]⟩,
  ⟨oN, rpA, oU, epY, oN, oN, [.login "user" "env_pass", .use "user" "new"]⟩,
  ⟨oN, rpA, oU, epY, oN, caX, [.check "expired", .login "user" "env_pass", .use "user" "new"]⟩,
  ⟨oN, oN, euA, oN, oN, oN, [.login "determined" "", .use "determined" "new"]⟩,
  ⟨oN, oN, euA, oN, oN, caX, [.check "expired", .login "user" "prompt_pass", .use "user" "new"]⟩,
  ⟨oN, oN, euA, oN, oN, caY, [.check "cache", .use "user" "cache"]⟩,
  ⟨oN, rpY, oN, oN, oN, oN, [.login "determined" "req_pass", .use "determined" "new"]⟩,
  ⟨oN, rpY, euYN, epA, etA, caY, [.check "cache", .use "user" "cache"]⟩
]

/-- Every scenario of the `test_login_scenarios` decision table. -/
def loginTableOk : Bool := loginRows.all rowOk

end Auth

namespace Auth

/-- Modelled from the spec: one master's entry in the token cache file
(`determined.common.api.authentication.TokenStore` is not under
`src/`): the active user and the per-user token map, as asserted by
`test_auth_json_v0_upgrade` and the `AUTH_JSON` fixture in
`src/harness/tests/cli/test_auth.py`. -/
structure MasterEntry where
  activeUser : Option String
  tokens : List (String × String)
  deriving DecidableEq, Repr

/-- Modelled from the spec: version-1 `auth.json` contents: a `version`
field and the entries keyed by master URL. -/
structure AuthV1 where
  version : Nat
  masters : List (String × MasterEntry)
  deriving DecidableEq, Repr

/-- Modelled from the spec: on-disk `auth.json` contents, either a
version-0 file (a single master's entry at top level, no `masters`
key) or a version-1 file. -/
inductive AuthFile where
  | v0 (entry : MasterEntry)
  | v1 (contents : AuthV1)
  deriving DecidableEq, Repr

/-- Modelled from the spec: the version-0 to version-1 shim run when a
`TokenStore` is constructed: a v0 file's entries are nested under the
given master URL with `version` set to 1; a v1 file is kept as is. -/
def shimStore (masterUrl : String) : AuthFile → AuthV1
  | .v0 e => ⟨1, [(masterUrl, e)]⟩
  | .v1 c => c

/-- Modelled from the spec: a constructed `TokenStore` for one master
URL; `contents` is also the persisted state of the backing file, since
every mutation is written back. -/
structure TokenStore where
  masterUrl : String
  contents : AuthV1
  deriving DecidableEq, Repr

/-- Modelled from the spec: `TokenStore.__init__` over a master URL and
the current contents of the backing file, running the v0-to-v1 shim and
persisting its result. -/
def TokenStore.load (masterUrl : String) (f : AuthFile) : TokenStore :=
  ⟨masterUrl, shimStore masterUrl f⟩

/-- The entry of a v1 file for one master URL (empty when absent). -/
def AuthV1.entryFor (c : AuthV1) (url : String) : MasterEntry :=
  (c.masters.lookup url).getD ⟨none, []⟩

/-- Modelled from the spec: `TokenStore.get_token`. -/
def TokenStore.getToken (ts : TokenStore) (u : String) : Option String :=
  (ts.contents.entryFor ts.masterUrl).tokens.lookup u

/-- Modelled from the spec: `TokenStore.get_active_user`. -/
def TokenStore.getActiveUser (ts : TokenStore) : Option String :=
  (ts.contents.entryFor ts.masterUrl).activeUser

/-- Replaces a user's token within one master's entry. -/
def MasterEntry.setTok (e : MasterEntry) (u t : String) : MasterEntry :=
  ⟨e.activeUser, (u, t) :: e.tokens.filter (fun p => p.1 != u)⟩

/-- Replaces one master's entry within v1 contents. -/
def AuthV1.setMaster (c : AuthV1) (url : String) (e : MasterEntry) : AuthV1 :=
  ⟨c.version, (url, e) :: c.masters.filter (fun p => p.1 != url)⟩

/-- Modelled from the spec: `TokenStore.set_token`, which updates the
token under the store's master URL and persists the file. -/
def TokenStore.setToken (ts : TokenStore) (u t : String) : TokenStore :=
  ⟨ts.masterUrl,
    ts.contents.setMaster ts.masterUrl ((ts.contents.entryFor ts.masterUrl).setTok u t)⟩

/-- Inputs of the CLI `user logout` flow: the explicitly requested user,
the `DET_USER`/`DET_PASS` environment variables and the token-cache
state. -/
structure LogoutInputs where
  reqUser : Option String
  envUser : Option String
  envPass : Option String
  cache : TokenCache
  deriving DecidableEq, Repr

/-- Externally visible calls of the logout flow: the cache token lookup,
the cache drop, and the master logout request (with its bearer token). -/
inductive LogoutEvent where
  | getToken (user : String)
  | dropUser (user : String)
  | postLogout (user token : String)
  deriving DecidableEq, BEq, Repr

/-- Modelled from the spec: the user the logout flow acts on, resolved
through `default_load_user_password` with no password and no
environment token, exactly as for login (the logout test pairs
`DET_PASS` with `DET_USER`, matching that shared resolution). -/
def logoutResolvedUser (i : LogoutInputs) : Option String :=
  (defaultLoadUserPassword ⟨i.reqUser, none, i.envUser, i.envPass, none, i.cache⟩).1

/-- Modelled from the spec: the CLI `user logout` flow (not under
`src/`), as exercised by `test_logout` in
`src/harness/tests/cli/test_auth.py`: resolve the user; do nothing when
none resolves; look up that user's cached token; when present, drop the
user from the cache and post the master logout request with that
token. -/
def logoutRun (i : LogoutInputs) : List LogoutEvent :=
  match logoutResolvedUser i with
  | none => []
  | some u =>
    match i.cache.getToken u with
    | none => [.getToken u]
    | some t => [.getToken u, .dropUser u, .postLogout u t]

/-- The mock cache state of `test_logout`: when the scenario has a user
in the cache, `get_token` answers `cache_token` for each queried user
and the active user is `cache_user`. -/
def mkLogoutCache (inCache : Bool) : TokenCache :=
  { tokens := if inCache then
      [("req_user", "cache_token"), ("env_user", "cache_token"), ("cache_user", "cache_token")]
    else []
    activeUser := if inCache then some "cache_user" else none }

/-- Checks one row of the `test_logout` decision table: the traced
calls of the model against the expected ones. -/
def logoutRowOk (reqUser : Option String) (envUser : Option String) (inCache : Bool)
    (expected : List LogoutEvent) : Bool :=
  logoutRun ⟨reqUser, envUser, envUser.map (fun _ => "env_pass"), mkLogoutCache inCache⟩
    == expected

/-- The model reproduces the `test_logout` decision table of
`src/harness/tests/cli/test_auth.py` (environment-user rows expanded
over both `DET_USER` settings; the `get_active_user` read of the
no-user rows is not traced). -/
def logoutTableOk : Bool :=
  [logoutRowOk (some "req_user") (some "env_user") true
      [.getToken "req_user", .dropUser "req_user", .postLogout "req_user" "cache_token"],
   logoutRowOk (some "req_user") none true
      [.getToken "req_user", .dropUser "req_user", .postLogout "req_user" "cache_token"],
   logoutRowOk (some "req_user") (some "env_user") false [.getToken "req_user"],
   logoutRowOk (some "req_user") none false [.getToken "req_user"],
   logoutRowOk none (some "env_user") true
      [.getToken "env_user", .dropUser "env_user", .postLogout "env_user" "cache_token"],
   logoutRowOk none (some "env_user") false [.getToken "env_user"],
   logoutRowOk none none true
      [.getToken "cache_user", .dropUser "cache_user", .postLogout "cache_user" "cache_token"],
   logoutRowOk none none false []].all id

end Auth

open Harness Auth

/-- The model reproduces the entire `test_login_scenarios` decision
table of `src/harness/tests/cli/test_auth.py`. -/
lemma loginTable_holds : loginTableOk = true := by decide

/-- The logout model matches every row of `test_logout`. -/
lemma logoutTable_holds : logoutTableOk = true := by decide

/-- C5: `main` requires on-cluster execution: it asserts that cluster
info is present and that the task type equals `TRIAL`, failing
immediately when either does not hold; when run on-cluster with a TRIAL
task neither assertion fires and execution continues into the
trial-class load. -/
theorem main_requires_on_cluster_trial (cfg : MainConfig) :
    (cfg.info = none →
      (runMain cfg).2 = .assertionError "must be run on-cluster") ∧
    (∀ info, cfg.info = some info → info.task_type ≠ "TRIAL" →
      (runMain cfg).2 =
        .assertionError
          ("must be run with task_type=\"TRIAL\", not \"" ++ info.task_type ++ "\"")) ∧
    (∀ info, cfg.info = some info → info.task_type = "TRIAL" →
      (∀ m, (runMain cfg).2 ≠ .assertionError m) ∧
      Event.trialClassFromEntrypoint ∈ (runMain cfg).1) := by
  obtain ⟨info, pt, hv, ds, tc, ar⟩ := cfg
  refine ⟨?_, ?_, ?_⟩
  · rintro rfl
    rfl
  · rintro i rfl hne
    simp only [runMain]
    rw [if_pos hne]
  · rintro ⟨tt, cr, ca, si⟩ rfl htt
    subst htt
    cases pt <;> cases hv <;> cases ds <;> cases tc <;> cases ar <;>
      by_cases hcr : cr = 0 <;>
      by_cases hm : ca.length > 1 ∨ si.length > 1 <;>
      simp_all [runMain] <;>
      (rw [if_neg (by omega)]; simp)

/-- Concrete instantiation of `main_requires_on_cluster_trial`: on a
single-slot TRIAL task the assertions pass and the trial class is
loaded. -/
theorem main_requires_on_cluster_trial_witness :
    ((⟨some ⟨"TRIAL", 0, [], []⟩, false, false, false, false, false⟩ : MainConfig).info =
        some ⟨"TRIAL", 0, [], []⟩) ∧
    (∀ m, (runMain ⟨some ⟨"TRIAL", 0, [], []⟩, false, false, false, false, false⟩).2 ≠
        .assertionError m) ∧
    Event.trialClassFromEntrypoint ∈
      (runMain ⟨some ⟨"TRIAL", 0, [], []⟩, false, false, false, false, false⟩).1 := by
  refine ⟨rfl, ?_⟩
  exact (main_requires_on_cluster_trial
    ⟨some ⟨"TRIAL", 0, [], []⟩, false, false, false, false, false⟩).2.2
    ⟨"TRIAL", 0, [], []⟩ rfl rfl

/-- C3: on a TRIAL task with a non-PyTorch trial that reaches training,
`main` performs the harness steps in order: read cluster info, load
(instantiate) the user's training code, initialize the distributed
backend (`pre_execute_hook`), construct the core context (`core.init`),
and finally drive training (`controller.run`); in particular the user's
training code is loaded before the distributed backend is
initialized. -/
theorem main_step_order (cfg : MainConfig) (info : ClusterInfo)
    (hinfo : cfg.info = some info) (htask : info.task_type = "TRIAL")
    (hpt : cfg.isPytorchTrial = false)
    (hok : cfg.useHorovod = true ∨ cfg.useDeepspeed = true ∨ cfg.useTorch = true ∨
      (info.container_addrs.length ≤ 1 ∧ info.slot_ids.length ≤ 1)) :
    List.Sublist
      [Event.getClusterInfo, Event.trialClassFromEntrypoint, Event.preExecuteHook,
       Event.coreInit (selectedBackend cfg) .chiefOnly .manual, Event.controllerRun]
      (runMain cfg).1 := by
  obtain ⟨oi, pt, hv, ds, tc, ar⟩ := cfg
  obtain ⟨tt, cr, ca, si⟩ := info
  simp only [MainConfig.info] at hinfo
  simp only at htask hpt hok
  subst hinfo
  subst htask
  subst hpt
  cases hv <;> cases ds <;> cases tc <;> cases ar <;> by_cases hcr : cr = 0 <;>
    simp at hok ⊢ <;>
    simp [runMain, selectedBackend, hcr] <;>
    (try rw [if_neg (by omega)]) <;>
    decide

/-- Concrete instantiation of `main_step_order`: a single-slot TRIAL
task with no active backend runs the steps in order. -/
theorem main_step_order_witness :
    List.Sublist
      [Event.getClusterInfo, Event.trialClassFromEntrypoint, Event.preExecuteHook,
       Event.coreInit
         (selectedBackend ⟨some ⟨"TRIAL", 0, ["a"], [0]⟩, false, false, false, false, false⟩)
         .chiefOnly .manual,
       Event.controllerRun]
      (runMain ⟨some ⟨"TRIAL", 0, ["a"], [0]⟩, false, false, false, false, false⟩).1 :=
  main_step_order ⟨some ⟨"TRIAL", 0, ["a"], [0]⟩, false, false, false, false, false⟩
    ⟨"TRIAL", 0, ["a"], [0]⟩ rfl rfl rfl (Or.inr (Or.inr (Or.inr ⟨by decide, by decide⟩)))

/-- `runMain` on a TRIAL task agrees with its boolean normal form. -/
lemma runMain_trial_eq (pt hv ds tc ar : Bool) (cr : Nat) (ca : List String)
    (si : List Nat) :
    runMain ⟨some ⟨"TRIAL", cr, ca, si⟩, pt, hv, ds, tc, ar⟩ =
      runMainTrial pt hv ds tc ar (decide (cr = 0))
        (decide (1 < ca.length ∨ 1 < si.length)) := by
  by_cases hcr : cr = 0 <;>
    by_cases hm : 1 < ca.length ∨ 1 < si.length <;>
    simp [runMain, runMainTrial, hcr, hm]

set_option maxHeartbeats 2000000 in
/-- C4: for every non-PyTorch TRIAL, `main` builds at most one
DistributedContext, checking Horovod, then DeepSpeed, then
Torch-distributed in that fixed order and constructing it from the
first active backend; when none is active on a single-container,
single-slot task the DistributedContext stays `None` and execution
proceeds. -/
theorem main_backend_selection (cfg : MainConfig) (info : ClusterInfo)
    (hinfo : cfg.info = some info) (htask : info.task_type = "TRIAL")
    (hpt : cfg.isPytorchTrial = false) :
    ((runMain cfg).1.count .distributedFromHorovod +
      (runMain cfg).1.count .distributedFromDeepspeed +
      (runMain cfg).1.count .distributedFromTorch ≤ 1) ∧
    (cfg.useHorovod = true →
      Event.distributedFromHorovod ∈ (runMain cfg).1 ∧
      Event.coreInit (some .horovod) .chiefOnly .manual ∈ (runMain cfg).1) ∧
    (cfg.useHorovod = false → cfg.useDeepspeed = true →
      Event.distributedFromDeepspeed ∈ (runMain cfg).1 ∧
      Event.coreInit (some .deepspeed) .chiefOnly .manual ∈ (runMain cfg).1) ∧
    (cfg.useHorovod = false → cfg.useDeepspeed = false → cfg.useTorch = true →
      Event.distributedFromTorch ∈ (runMain cfg).1 ∧
      Event.coreInit (some .torchDistributed) .chiefOnly .manual ∈ (runMain cfg).1) ∧
    (cfg.useHorovod = false → cfg.useDeepspeed = false → cfg.useTorch = false →
      info.container_addrs.length ≤ 1 → info.slot_ids.length ≤ 1 →
      Event.coreInit none .chiefOnly .manual ∈ (runMain cfg).1 ∧
      (runMain cfg).2 = .ok 0) := by
  obtain ⟨oi, pt, hv, ds, tc, ar⟩ := cfg
  obtain ⟨tt, cr, ca, si⟩ := info
  simp only [MainConfig.info] at hinfo
  simp only at htask hpt
  subst hinfo
  subst htask
  subst hpt
  rw [runMain_trial_eq]
  cases hb : decide (1 < ca.length ∨ 1 < si.length) <;>
    cases hr : decide (cr = 0) <;>
    cases hv <;> cases ds <;> cases tc <;> cases ar <;>
    refine ⟨?_, ?_, ?_, ?_, ?_⟩ <;>
    first
    | decide
    | (intros; decide)
    | (intros; simp_all; done)
    | (intros; have hx := of_decide_eq_true hb; simp_all; omega)

/-- Concrete instantiation of `main_backend_selection`: with DeepSpeed
active (and Horovod inactive) the DeepSpeed context is built. -/
theorem main_backend_selection_witness :
    Event.distributedFromDeepspeed ∈
      (runMain ⟨some ⟨"TRIAL", 0, [], []⟩, false, false, true, false, false⟩).1 ∧
    Event.coreInit (some .deepspeed) .chiefOnly .manual ∈
      (runMain ⟨some ⟨"TRIAL", 0, [], []⟩, false, false, true, false, false⟩).1 :=
  (main_backend_selection ⟨some ⟨"TRIAL", 0, [], []⟩, false, false, true, false, false⟩
    ⟨"TRIAL", 0, [], []⟩ rfl rfl rfl).2.2.1 rfl rfl

set_option maxHeartbeats 2000000 in
/-- C7: for every non-PyTorch TRIAL that reaches `core.init`, `main`
creates the core context with `PreemptMode.ChiefOnly` and
`TensorboardMode.MANUAL`, and only after the distributed-backend
decision: `pre_execute_hook` precedes the `core.init` call in the
trace, and every `core.init` call in the trace uses those two modes. -/
theorem main_core_init_modes (cfg : MainConfig) (info : ClusterInfo)
    (hinfo : cfg.info = some info) (htask : info.task_type = "TRIAL")
    (hpt : cfg.isPytorchTrial = false)
    (hok : cfg.useHorovod = true ∨ cfg.useDeepspeed = true ∨ cfg.useTorch = true ∨
      (info.container_addrs.length ≤ 1 ∧ info.slot_ids.length ≤ 1)) :
    List.Sublist
      [Event.preExecuteHook, Event.coreInit (selectedBackend cfg) .chiefOnly .manual]
      (runMain cfg).1 ∧
    (∀ d p t, Event.coreInit d p t ∈ (runMain cfg).1 →
      p = .chiefOnly ∧ t = .manual) := by
  obtain ⟨oi, pt, hv, ds, tc, ar⟩ := cfg
  obtain ⟨tt, cr, ca, si⟩ := info
  simp only [MainConfig.info] at hinfo
  simp only at htask hpt hok
  subst hinfo
  subst htask
  subst hpt
  rw [runMain_trial_eq]
  cases hb : decide (1 < ca.length ∨ 1 < si.length) <;>
    cases hr : decide (cr = 0) <;>
    cases hv <;> cases ds <;> cases tc <;> cases ar <;>
    refine ⟨?_, ?_⟩ <;>
    first
    | (simp [selectedBackend]; done)
    | (simp only [selectedBackend]; simp; done)
    | (simp [selectedBackend]; decide)
    | decide
    | (intro d p t h; simp [runMainTrial] at h; try simp_all)
    | (have hx := of_decide_eq_true hb
       rcases hok with h | h | h | h <;> simp_all <;> omega)

/-- Concrete instantiation of `main_core_init_modes`: with Horovod
active, `pre_execute_hook` precedes `core.init(ChiefOnly, MANUAL)`. -/
theorem main_core_init_modes_witness :
    List.Sublist
      [Event.preExecuteHook,
       Event.coreInit
         (selectedBackend ⟨some ⟨"TRIAL", 1, [], []⟩, false, true, false, false, false⟩)
         .chiefOnly .manual]
      (runMain ⟨some ⟨"TRIAL", 1, [], []⟩, false, true, false, false, false⟩).1 :=
  (main_core_init_modes ⟨some ⟨"TRIAL", 1, [], []⟩, false, true, false, false, false⟩
    ⟨"TRIAL", 1, [], []⟩ rfl rfl rfl (Or.inl rfl)).1

set_option maxHeartbeats 2000000 in
/-- C8: when no distributed backend is active and the TRIAL task spans
more than one container or more than one slot, `main` raises the
multi-slot `ValueError` before the core context is created or the
user's trial is instantiated. -/
theorem main_multislot_value_error (cfg : MainConfig) (info : ClusterInfo)
    (hinfo : cfg.info = some info) (htask : info.task_type = "TRIAL")
    (hpt : cfg.isPytorchTrial = false)
    (hb1 : cfg.useHorovod = false) (hb2 : cfg.useDeepspeed = false)
    (hb3 : cfg.useTorch = false)
    (hmulti : 1 < info.container_addrs.length ∨ 1 < info.slot_ids.length) :
    (runMain cfg).2 = .valueError multiSlotMsg ∧
    (∀ d p t, Event.coreInit d p t ∉ (runMain cfg).1) ∧
    Event.instantiateTrial ∉ (runMain cfg).1 := by
  obtain ⟨oi, pt, hv, ds, tc, ar⟩ := cfg
  obtain ⟨tt, cr, ca, si⟩ := info
  simp only [MainConfig.info] at hinfo
  simp only at htask hpt hb1 hb2 hb3 hmulti
  subst hinfo
  subst htask
  subst hpt
  subst hb1
  subst hb2
  subst hb3
  rw [runMain_trial_eq, decide_eq_true hmulti]
  cases hr : decide (cr = 0) <;> cases ar <;>
    refine ⟨rfl, ?_, ?_⟩ <;>
    first
    | decide
    | (intro d p t h; simp [runMainTrial] at h)

/-- Concrete instantiation of `main_multislot_value_error`: two
containers, no backend. -/
theorem main_multislot_value_error_witness :
    (runMain ⟨some ⟨"TRIAL", 0, ["a", "b"], [0, 1]⟩,
        false, false, false, false, false⟩).2 = .valueError multiSlotMsg ∧
    Event.instantiateTrial ∉
      (runMain ⟨some ⟨"TRIAL", 0, ["a", "b"], [0, 1]⟩,
        false, false, false, false, false⟩).1 := by
  have h := main_multislot_value_error
    ⟨some ⟨"TRIAL", 0, ["a", "b"], [0, 1]⟩, false, false, false, false, false⟩
    ⟨"TRIAL", 0, ["a", "b"], [0, 1]⟩ rfl rfl rfl rfl rfl rfl (by decide)
  exact ⟨h.1, h.2.2⟩

set_option maxHeartbeats 4000000 in
set_option maxRecDepth 8000 in
/-- C10: `main` attempts to send trial-loaded analytics only when
`container_rank == 0`; an exception while sending is caught and logged
at debug level, never changes the outcome of `main`, and never removes
any other step from the trace. -/
theorem main_analytics_rank0_nonfatal (cfg : MainConfig) :
    (Event.sendAnalytics ∈ (runMain cfg).1 →
      ∃ info, cfg.info = some info ∧ info.container_rank = 0) ∧
    ((runMain {cfg with analyticsRaises := true}).2 =
      (runMain {cfg with analyticsRaises := false}).2) ∧
    ((runMain {cfg with analyticsRaises := true}).1.filter
        (fun e => decide (e ≠ Event.analyticsExceptionLoggedDebug)) =
      (runMain {cfg with analyticsRaises := false}).1) ∧
    (cfg.analyticsRaises = true → Event.sendAnalytics ∈ (runMain cfg).1 →
      Event.analyticsExceptionLoggedDebug ∈ (runMain cfg).1) := by
  obtain ⟨oi, pt, hv, ds, tc, ar⟩ := cfg
  rcases oi with _ | ⟨tt, cr, ca, si⟩
  · refine ⟨fun h => ?_, rfl, rfl, fun _ h => ?_⟩ <;> simp [runMain] at h
  · by_cases htt : tt = "TRIAL"
    · subst htt
      dsimp only
      simp only [runMain_trial_eq]
      cases hb : decide (1 < ca.length ∨ 1 < si.length) <;>
        cases hr : decide (cr = 0) <;>
        cases pt <;> cases hv <;> cases ds <;> cases tc <;> cases ar <;>
        refine ⟨?_, ?_, ?_, ?_⟩ <;>
        first
        | decide
        | (exact fun h => ⟨⟨"TRIAL", cr, ca, si⟩, rfl, of_decide_eq_true hr⟩)
        | (intro h; simp [runMainTrial] at h; done)
        | (intro h1 h2; simp [runMainTrial] at h2; done)
        | (intro h1 h2; decide)
        | (intro h1 h2; simp at h1; done)
    · refine ⟨fun h => ?_, ?_, ?_, fun h1 h2 => ?_⟩ <;>
        simp_all [runMain]

/-- Concrete instantiation of `main_analytics_rank0_nonfatal`: on a
rank-0 TRIAL task with failing analytics, the exception is logged and
the run still ends in success. -/
theorem main_analytics_rank0_nonfatal_witness :
    Event.sendAnalytics ∈
      (runMain ⟨some ⟨"TRIAL", 0, [], []⟩, false, true, false, false, true⟩).1 ∧
    (∃ info, (⟨some ⟨"TRIAL", 0, [], []⟩, false, true, false, false, true⟩ :
        MainConfig).info = some info ∧ info.container_rank = 0) ∧
    Event.analyticsExceptionLoggedDebug ∈
      (runMain ⟨some ⟨"TRIAL", 0, [], []⟩, false, true, false, false, true⟩).1 := by
  have h := main_analytics_rank0_nonfatal
    ⟨some ⟨"TRIAL", 0, [], []⟩, false, true, false, false, true⟩
  exact ⟨by decide, h.1 (by decide), h.2.2.2 rfl (by decide)⟩

/-- C1: the identity and bearer token resolved by
`authentication.Authentication` — the sequence of token-validity
checks, `do_login` calls, and the final session username/token — are a
deterministic function of the six inputs: two runs (against the same
validity oracle, password prompt and `do_login` behaviour) that agree
on the requested user, the requested password, `DET_USER`, `DET_PASS`,
`DET_USER_TOKEN` and the token-cache state produce identical traces
and sessions. -/
theorem authentication_deterministic (valid : String → Bool)
    (promptPass : String) (doLoginTok : String → String → String)
    (i j : AuthInputs)
    (h1 : i.reqUser = j.reqUser) (h2 : i.reqPass = j.reqPass)
    (h3 : i.envUser = j.envUser) (h4 : i.envPass = j.envPass)
    (h5 : i.envToken = j.envToken) (h6 : i.cache = j.cache) :
    authentication valid promptPass doLoginTok i =
      authentication valid promptPass doLoginTok j := by
  obtain ⟨a1, a2, a3, a4, a5, a6⟩ := i
  obtain ⟨b1, b2, b3, b4, b5, b6⟩ := j
  simp only at h1 h2 h3 h4 h5 h6
  subst h1
  subst h2
  subst h3
  subst h4
  subst h5
  subst h6
  rfl

/-- Concrete instantiation of `authentication_deterministic`. -/
theorem authentication_deterministic_witness :
    authentication validMock "prompt_pass" (fun _ _ => "new")
        ⟨some "user", none, none, none, none, mkCache (some "cache")⟩ =
      authentication validMock "prompt_pass" (fun _ _ => "new")
        ⟨some "user", none, none, none, none, mkCache (some "cache")⟩ :=
  authentication_deterministic validMock "prompt_pass" (fun _ _ => "new")
    ⟨some "user", none, none, none, none, mkCache (some "cache")⟩
    ⟨some "user", none, none, none, none, mkCache (some "cache")⟩
    rfl rfl rfl rfl rfl rfl

/-- C2: whenever the token cache holds a token for the resolved user,
`Authentication` validates that cached token first; if it is valid the
cached token becomes the session (overriding `DET_USER_TOKEN`,
`DET_PASS` and any explicit password) and `do_login` is never called;
if it is expired, resolution falls back to the environment token when
set and applicable, and otherwise to a `do_login` call. -/
theorem authentication_cache_precedence (valid : String → Bool)
    (promptPass : String) (doLoginTok : String → String → String)
    (i : AuthInputs) (u t : String)
    (hu : (defaultLoadUserPassword i).1 = some u)
    (ht : i.cache.getToken u = some t) :
    ((authentication valid promptPass doLoginTok i).1.head? =
      some (AuthEvent.checkToken t)) ∧
    (valid t = true →
      (authentication valid promptPass doLoginTok i).2 = (u, t) ∧
      ∀ u' p, AuthEvent.doLogin u' p ∉
        (authentication valid promptPass doLoginTok i).1) ∧
    (valid t = false →
      (∀ eu tok, envTokenPair i = some (eu, tok) →
        (authentication valid promptPass doLoginTok i).2 = (eu, tok) ∧
        ∀ u' p, AuthEvent.doLogin u' p ∉
          (authentication valid promptPass doLoginTok i).1) ∧
      (envTokenPair i = none →
        ∃ u' p, AuthEvent.doLogin u' p ∈
          (authentication valid promptPass doLoginTok i).1)) := by
  rcases hd : defaultLoadUserPassword i with ⟨su, pw⟩
  rw [hd] at hu
  simp only at hu
  subst hu
  cases hv : valid t
  · rcases hp : envTokenPair i with _ | ⟨eu, tok⟩ <;>
      refine ⟨?_, ?_, ?_⟩ <;>
      simp [authentication, hd, ht, hv, finishLogin, hp]
  · refine ⟨?_, ?_, ?_⟩ <;>
      simp [authentication, hd, ht, hv]

/-- Concrete instantiation of `authentication_cache_precedence`: a valid
cached token wins over an explicit password and the environment. -/
theorem authentication_cache_precedence_witness :
    (defaultLoadUserPassword
        ⟨some "user", some "req_pass", some "user", some "env_pass",
         some "env_token", mkCache (some "cache")⟩).1 = some "user" ∧
    (authentication validMock "prompt_pass" (fun _ _ => "new")
        ⟨some "user", some "req_pass", some "user", some "env_pass",
         some "env_token", mkCache (some "cache")⟩).2 = ("user", "cache") :=
  ⟨rfl,
    ((authentication_cache_precedence validMock "prompt_pass" (fun _ _ => "new")
        ⟨some "user", some "req_pass", some "user", some "env_pass",
         some "env_token", mkCache (some "cache")⟩ "user" "cache" rfl rfl).2.1
      rfl).1⟩

/-- C6: the token cache round-trips and self-upgrades: after
`set_token(u, t)`, `get_token(u)` returns `t`, also from a fresh
`TokenStore` constructed over the persisted file; and loading a
version-0 `auth.json` upgrades it on disk to version 1 with all
entries stored under the master-URL key, preserving the active user
and the existing tokens. -/
theorem tokenStore_roundtrip_v0_upgrade (url : String) (f : AuthFile)
    (u t : String) (e : MasterEntry) :
    (((TokenStore.load url f).setToken u t).getToken u = some t) ∧
    ((TokenStore.load url
        (.v1 ((TokenStore.load url f).setToken u t).contents)).getToken u = some t) ∧
    ((TokenStore.load url (.v0 e)).contents.version = 1) ∧
    ((TokenStore.load url (.v0 e)).contents.masters = [(url, e)]) ∧
    ((TokenStore.load url (.v0 e)).getActiveUser = e.activeUser) ∧
    (∀ w, (TokenStore.load url (.v0 e)).getToken w = e.tokens.lookup w) := by
  refine ⟨?_, ?_, rfl, rfl, ?_, fun w => ?_⟩ <;>
    simp [TokenStore.load, TokenStore.setToken, TokenStore.getToken,
      TokenStore.getActiveUser, AuthV1.setMaster, AuthV1.entryFor,
      MasterEntry.setTok, shimStore, List.lookup]

/-- C9 counterexample: with no explicit user, `DET_USER` set but
`DET_PASS` unset, no active user in the cache, and a cached token for
the `DET_USER` user, the logout flow resolves no user and performs no
logout, although the claimed precedence (`DET_USER` alone) would
resolve that user and log it out. -/
theorem logout_env_user_counterexample :
    (⟨none, some "user", none, ⟨[("user", "tok")], none⟩⟩ :
        LogoutInputs).envUser = some "user" ∧
    TokenCache.getToken ⟨[("user", "tok")], none⟩ "user" = some "tok" ∧
    logoutResolvedUser ⟨none, some "user", none, ⟨[("user", "tok")], none⟩⟩ = none ∧
    logoutRun ⟨none, some "user", none, ⟨[("user", "tok")], none⟩⟩ = [] :=
  ⟨rfl, rfl, rfl, rfl⟩

/-- C9 (amended): the logout flow resolves the user to log out by
precedence — the explicitly requested user if given, else the
`DET_USER` environment user when `DET_PASS` is also set, else the
cache's active user; the master logout request and the cache drop
happen only when the resolved user has a token in the cache, and when
no user resolves at all the command is a no-op. -/
theorem logout_precedence (i : LogoutInputs) :
    (∀ u, i.reqUser = some u → logoutResolvedUser i = some u) ∧
    (i.reqUser = none → ∀ eu ep, i.envUser = some eu → i.envPass = some ep →
      logoutResolvedUser i = some eu) ∧
    (i.reqUser = none → (i.envUser = none ∨ i.envPass = none) →
      logoutResolvedUser i = i.cache.activeUser) ∧
    (∀ u, logoutResolvedUser i = some u →
      (∀ t, i.cache.getToken u = some t →
        logoutRun i = [.getToken u, .dropUser u, .postLogout u t]) ∧
      (i.cache.getToken u = none → logoutRun i = [.getToken u])) ∧
    (logoutResolvedUser i = none → logoutRun i = []) := by
  obtain ⟨ru, eu, ep, c⟩ := i
  refine ⟨?_, ?_, ?_, ?_, ?_⟩
  · rintro u rfl
    rfl
  · rintro rfl eu' ep' rfl rfl
    rfl
  · rintro rfl h
    rcases h with rfl | rfl
    · rfl
    · cases eu <;> rfl
  · intro u hres
    constructor
    · intro t hg
      simp [logoutRun, hres, hg]
    · intro hg
      simp [logoutRun, hres, hg]
  · intro h
    simp [logoutRun, h]

/-- Concrete instantiation of `logout_precedence`: an explicitly
requested user with a cached token is dropped and logged out. -/
theorem logout_precedence_witness :
    logoutRun ⟨some "req_user", none, none, mkLogoutCache true⟩ =
      [.getToken "req_user", .dropUser "req_user",
       .postLogout "req_user" "cache_token"] :=
  ((logout_precedence ⟨some "req_user", none, none, mkLogoutCache true⟩).2.2.2.1
    "req_user" rfl).1 "cache_token" rfl
